import Mathlib

/-!
Verification of the Agent OS policy decision engine (hooks) against its
natural-language specification.  The Python sources under `hooks/` are
shallowly embedded: pure functions become Lean functions over `List Char`
and `ℚ` (floats are modelled as exact rationals), environment lookups and
prompt I/O become explicit parameters, and fallible code returns `Except`.
-/

/-- Python `str.strip` whitespace set (ASCII). -/
def pyIsSpace (c : Char) : Bool :=
  c = ' ' || c = '\t' || c = '\n' || c = '\r' || c = '\x0b' || c = '\x0c'

/-- Python `str.strip()` on a character list. -/
def pyStrip (l : List Char) : List Char :=
  ((l.dropWhile pyIsSpace).reverse.dropWhile pyIsSpace).reverse

/-- Python `str.lower()` on a character list (ASCII inputs). -/
def pyLower (l : List Char) : List Char :=
  l.map Char.toLower

/-- Python `str.strip()` on a `String`. -/
def pyStripStr (s : String) : String :=
  ⟨pyStrip s.data⟩

/-- Python `str.lower()` on a `String`. -/
def pyLowerStr (s : String) : String :=
  ⟨pyLower s.data⟩

/-- Does `hay` start with `needle`? -/
def startsWithChars : List Char → List Char → Bool
  | [], _ => true
  | _ :: _, [] => false
  | a :: as, b :: bs => a = b && startsWithChars as bs

/-- Python `needle in hay` substring containment. -/
def containsSub (hay needle : List Char) : Bool :=
  match hay with
  | [] => needle.isEmpty
  | _ :: t => startsWithChars needle hay || containsSub t needle

/-- Regex `\w` (ASCII): letters, digits, underscore. -/
def isWordChar (c : Char) : Bool :=
  c.isAlphanum || c = '_'

/-- True when position `i` of `s` holds no word char (off-end counts). -/
def noWordCharAt (s : List Char) (i : Nat) : Bool :=
  match s.get? i with
  | some c => !isWordChar c
  | none => true

/-- Does literal `w` occur at index `j` of `s`? -/
def litAt (s w : List Char) (j : Nat) : Bool :=
  startsWithChars w (s.drop j)

/-- One regex atom: an alternation of literal words, with optional left/right
`\b` word-boundary requirements (all the repository's literals start and end
in word characters, so `\b` reduces to a non-word neighbour or string edge). -/
structure PatAtom where
  alts : List (List Char)
  lb : Bool
  rb : Bool
deriving DecidableEq, Repr

/-- Atom `w` matches at `j` respecting its boundary flags. -/
def boundedLitAt (s : List Char) (w : List Char) (j : Nat) (lb rb : Bool) : Bool :=
  litAt s w j
  && (!lb || (if j = 0 then true else noWordCharAt s (j - 1)))
  && (!rb || noWordCharAt s (j + w.length))

/-- `re.search` semantics for a `.*`-separated sequence of atoms, looking for a
match whose first atom starts at any index `≥ i`. -/
def atomSeqFrom (s : List Char) : List PatAtom → Nat → Bool
  | [], _ => true
  | a :: rest, i =>
    (List.range (s.length + 1 - i)).any fun d =>
      a.alts.any fun w =>
        boundedLitAt s w (i + d) a.lb a.rb && atomSeqFrom s rest (i + d + w.length)

/-- Shallow regex embedding covering every pattern the repository compiles:
a `.*`-separated sequence of literal-alternation atoms, the one negative
lookahead `\brefactor\b(?!.*\bnew\b)`, and `git\s+\w+`. -/
inductive RePat
  | seqPat (atoms : List PatAtom)
  | negAfter (first : PatAtom) (neg : PatAtom)
  | gitSpaceWord
deriving DecidableEq, Repr

/-- `git\s+\w+`: "git", one or more whitespace, then a word char. -/
def gitSpaceWordMatch (s : List Char) : Bool :=
  (List.range (s.length + 1)).any fun j =>
    litAt s "git".data j &&
    (match s.drop (j + 3) with
     | [] => false
     | c :: t =>
       pyIsSpace c &&
       (match t.dropWhile pyIsSpace with
        | [] => false
        | d :: _ => isWordChar d))

/-- `re.search(pattern, s)` for the embedded pattern language. -/
def reMatches (s : List Char) : RePat → Bool
  | .seqPat atoms => atomSeqFrom s atoms 0
  | .negAfter a n =>
    (List.range (s.length + 1)).any fun j =>
      a.alts.any fun w =>
        boundedLitAt s w j a.lb a.rb && !(atomSeqFrom s [n] (j + w.length))
  | .gitSpaceWord => gitSpaceWordMatch s

/-- Atom with `\b` on both sides (e.g. `\bfix\b`); optional-suffix regexes such
as `tests?` are expanded into their explicit alternatives. -/
def atomB (alts : List String) : PatAtom :=
  ⟨alts.map String.data, true, true⟩

/-- Atom with `\b` on the left only (e.g. `\bfail` in `\bfix\b.*\bfail`). -/
def atomL (alts : List String) : PatAtom :=
  ⟨alts.map String.data, true, false⟩

/-- Plain (unanchored) alternation atom, e.g. `(?:for|through|in)`. -/
def atomP (alts : List String) : PatAtom :=
  ⟨alts.map String.data, false, false⟩

/-! ## Intent Classifier (`hooks/intent_analyzer.py`) -/

/-- `IntentType` enum from `intent_analyzer.py`. -/
inductive IntentType
  | maintenance
  | new_work
  | ambiguous
deriving DecidableEq, Repr

/-- The reasoning strings built by the classifier, one constructor per
f-string template of the source (numeric formatting elided). -/
inductive Reasoning
  | empty_message
  | matched_maintenance (count : Nat)
  | matched_new_work (count : Nat)
  | ambiguous_low (mc nc : ℚ)
  | ambiguous_similar (mc nc : ℚ)
deriving DecidableEq, Repr

/-- `WorkIntentResult` dataclass. -/
structure WorkIntentResult where
  intent_type : IntentType
  confidence : ℚ
  matched_patterns : List RePat
  reasoning : Reasoning
deriving DecidableEq, Repr

/-- `_get_default_maintenance_patterns`, 20 patterns, each compiled with
`re.IGNORECASE` (inputs are lowercased before matching). -/
def maintenance_patterns : List RePat :=
  [ .seqPat [atomB ["fix"], atomB ["tests", "test"]],
    .seqPat [atomB ["fix"], atomB ["bug"]],
    .seqPat [atomB ["fix"], atomB ["issues", "issue"]],
    .seqPat [atomB ["fix"], atomB ["errors", "error"]],
    .seqPat [atomB ["fix"], atomL ["fail"]],
    .seqPat [atomB ["debug"]],
    .seqPat [atomB ["resolve"], atomB ["conflicts", "conflict"]],
    .seqPat [atomB ["address"], atomB ["ci"]],
    .seqPat [atomB ["address"], atomB ["pipeline"]],
    .seqPat [atomB ["update"], atomL ["dependen"]],
    .negAfter (atomB ["refactor"]) (atomB ["new"]),
    .seqPat [atomB ["fix"], atomB ["styles", "style"]],
    .seqPat [atomB ["fix"], atomL ["brok"]],
    .seqPat [atomB ["resolve"], atomB ["errors", "error"]],
    .seqPat [atomB ["fix"], atomB ["performance"]],
    .seqPat [atomB ["fix"], atomB ["validation"]],
    .seqPat [atomB ["repair"]],
    .seqPat [atomB ["correct"]],
    .seqPat [atomB ["mend"]],
    .seqPat [atomB ["patch"]] ]

/-- `_get_default_new_work_patterns`, 16 patterns. -/
def new_work_patterns : List RePat :=
  [ .seqPat [atomB ["implement"], atomB ["feature"]],
    .seqPat [atomB ["implement"], atomB ["functionality"]],
    .seqPat [atomB ["build"], atomB ["new"]],
    .seqPat [atomB ["create"], atomB ["feature"]],
    .seqPat [atomB ["create"], atomB ["component"]],
    .seqPat [atomB ["create"], atomB ["system"]],
    .seqPat [atomB ["create"], atomB ["interface"]],
    .seqPat [atomB ["add"], atomB ["feature"]],
    .seqPat [atomB ["add"], atomB ["functionality"]],
    .seqPat [atomB ["add"], atomB ["system"]],
    .seqPat [atomB ["develop"], atomB ["feature", "system", "interface", "component"]],
    .seqPat [atomB ["design"], atomB ["feature", "system", "interface", "component"]],
    .seqPat [atomB ["build"], atomB ["dashboard", "interface", "system", "feature"]],
    .seqPat [atomB ["implement"], atomB ["oauth", "auth", "login", "signup"]],
    .seqPat [atomB ["create"], atomB ["api", "endpoint", "service"]],
    .seqPat [atomB ["add"], atomB ["search", "notification", "integration"]] ]

/-- Default `confidence_threshold` (0.6) used when no config file exists. -/
def confidence_threshold : ℚ := 6 / 10

/-- `user_message.strip().lower()`: the normalized text the patterns run on. -/
def normalized (user_message : String) : List Char :=
  pyLower (pyStrip user_message.data)

/-- `_find_pattern_matches` over the maintenance family. -/
def maintenance_matches (message : List Char) : List RePat :=
  maintenance_patterns.filter (fun p => reMatches message p)

/-- `_find_pattern_matches` over the new-work family. -/
def new_work_matches (message : List Char) : List RePat :=
  new_work_patterns.filter (fun p => reMatches message p)

/-- Number of maintenance patterns matching the normalized message. -/
def maintenance_match_count (user_message : String) : Nat :=
  (maintenance_matches (normalized user_message)).length

/-- Number of new-work patterns matching the normalized message. -/
def new_work_match_count (user_message : String) : Nat :=
  (new_work_matches (normalized user_message)).length

/-- `IntentAnalyzer._determine_intent`. -/
def determine_intent (mm : List RePat) (ms : ℚ) (nm : List RePat) (ns : ℚ) :
    WorkIntentResult :=
  let mc := min 1 (ms * (1 + (mm.length : ℚ) * (1 / 10)))
  let nc := min 1 (ns * (1 + (nm.length : ℚ) * (1 / 10)))
  if confidence_threshold < mc ∧ nc < mc then
    ⟨.maintenance, mc, mm, .matched_maintenance mm.length⟩
  else if confidence_threshold < nc ∧ mc < nc then
    ⟨.new_work, nc, nm, .matched_new_work nm.length⟩
  else
    let maxc := max mc nc
    ⟨.ambiguous, maxc, mm ++ nm,
      if maxc < confidence_threshold then .ambiguous_low mc nc
      else .ambiguous_similar mc nc⟩

/-- `IntentAnalyzer.analyze_intent` (default configuration: the YAML config
file is absent, so default pattern tables and thresholds apply). -/
def analyze_intent (user_message : String) : WorkIntentResult :=
  if (pyStrip user_message.data).isEmpty then
    ⟨.ambiguous, 0, [], .empty_message⟩
  else
    let message := pyLower (pyStrip user_message.data)
    let mm := maintenance_matches message
    let ms : ℚ := (mm.length : ℚ) / ((max 1 maintenance_patterns.length : ℕ) : ℚ)
    let nm := new_work_matches message
    let ns : ℚ := (nm.length : ℚ) / ((max 1 new_work_patterns.length : ℕ) : ℚ)
    determine_intent mm ms nm ns

/-- Modelled from the spec wording (for comparison with the code): per-family
confidence `min(1.0, raw_score × (1 + 0.1 × number_of_matches))` where
`raw_score = matches / total patterns in the family`. -/
def specFamilyConfidence (m total : Nat) : ℚ :=
  min 1 (((m : ℚ) / (total : ℚ)) * (1 + (1 / 10) * (m : ℚ)))

theorem analyze_intent_eq (s : String) (h : (pyStrip s.data).isEmpty = false) :
    analyze_intent s
      = determine_intent (maintenance_matches (normalized s))
          (((maintenance_matches (normalized s)).length : ℚ) / 20)
          (new_work_matches (normalized s))
          (((new_work_matches (normalized s)).length : ℚ) / 16) := by
  have h20 : maintenance_patterns.length = 20 := rfl
  have h16 : new_work_patterns.length = 16 := rfl
  unfold analyze_intent
  rw [if_neg (by simp [h])]
  simp only [normalized, h20, h16]
  norm_num

theorem determine_intent_cases (mm nm : List RePat) :
    determine_intent mm ((mm.length : ℚ) / 20) nm ((nm.length : ℚ) / 16)
      = (if 6/10 < specFamilyConfidence mm.length 20
            ∧ specFamilyConfidence nm.length 16 < specFamilyConfidence mm.length 20 then
           ⟨.maintenance, specFamilyConfidence mm.length 20, mm,
             .matched_maintenance mm.length⟩
         else if 6/10 < specFamilyConfidence nm.length 16
            ∧ specFamilyConfidence mm.length 20 < specFamilyConfidence nm.length 16 then
           ⟨.new_work, specFamilyConfidence nm.length 16, nm, .matched_new_work nm.length⟩
         else
           ⟨.ambiguous,
             max (specFamilyConfidence mm.length 20) (specFamilyConfidence nm.length 16),
             mm ++ nm,
             if max (specFamilyConfidence mm.length 20) (specFamilyConfidence nm.length 16)
                 < 6/10 then
               .ambiguous_low (specFamilyConfidence mm.length 20)
                 (specFamilyConfidence nm.length 16)
             else
               .ambiguous_similar (specFamilyConfidence mm.length 20)
                 (specFamilyConfidence nm.length 16)⟩ : WorkIntentResult) := by
  have hmc : min 1 (((mm.length : ℚ) / 20) * (1 + (mm.length : ℚ) * (1 / 10)))
      = specFamilyConfidence mm.length 20 := by
    unfold specFamilyConfidence; norm_num; congr 1; ring
  have hnc : min 1 (((nm.length : ℚ) / 16) * (1 + (nm.length : ℚ) * (1 / 10)))
      = specFamilyConfidence nm.length 16 := by
    unfold specFamilyConfidence; norm_num; congr 1; ring
  simp only [determine_intent, confidence_threshold, hmc, hnc]

theorem maintenance_match_count_le (s : String) : maintenance_match_count s ≤ 20 := by
  have h := List.length_filter_le (fun p => reMatches (normalized s) p) maintenance_patterns
  simpa [maintenance_match_count, maintenance_matches] using h

/-- C3: for every non-empty, non-whitespace input, `analyze_intent` computes
per-family confidence `min(1, (matches/total) * (1 + 0.1*matches))` (totals 20
and 16), returns a family's class with that confidence exactly when it exceeds
the 0.6 threshold and strictly exceeds the other family's confidence, and
otherwise returns AMBIGUOUS with the maximum of the two confidences. -/
theorem intent_pipeline_decision (s : String)
    (h : (pyStrip s.data).isEmpty = false) :
    ((6/10 < specFamilyConfidence (maintenance_match_count s) 20
        ∧ specFamilyConfidence (new_work_match_count s) 16
            < specFamilyConfidence (maintenance_match_count s) 20) →
      (analyze_intent s).intent_type = IntentType.maintenance
      ∧ (analyze_intent s).confidence
          = specFamilyConfidence (maintenance_match_count s) 20)
    ∧ ((6/10 < specFamilyConfidence (new_work_match_count s) 16
        ∧ specFamilyConfidence (maintenance_match_count s) 20
            < specFamilyConfidence (new_work_match_count s) 16) →
      (analyze_intent s).intent_type = IntentType.new_work
      ∧ (analyze_intent s).confidence
          = specFamilyConfidence (new_work_match_count s) 16)
    ∧ ((¬(6/10 < specFamilyConfidence (maintenance_match_count s) 20
        ∧ specFamilyConfidence (new_work_match_count s) 16
            < specFamilyConfidence (maintenance_match_count s) 20)
        ∧ ¬(6/10 < specFamilyConfidence (new_work_match_count s) 16
        ∧ specFamilyConfidence (maintenance_match_count s) 20
            < specFamilyConfidence (new_work_match_count s) 16)) →
      (analyze_intent s).intent_type = IntentType.ambiguous
      ∧ (analyze_intent s).confidence
          = max (specFamilyConfidence (maintenance_match_count s) 20)
              (specFamilyConfidence (new_work_match_count s) 16)) := by
  have hmm : (maintenance_matches (normalized s)).length = maintenance_match_count s := rfl
  have hnm : (new_work_matches (normalized s)).length = new_work_match_count s := rfl
  rw [analyze_intent_eq s h, determine_intent_cases, hmm, hnm]
  refine ⟨fun hA => ?_, fun hB => ?_, fun hC => ?_⟩

  · rw [if_pos hA]; exact ⟨rfl, rfl⟩
  · have hA : ¬(6/10 < specFamilyConfidence (maintenance_match_count s) 20
        ∧ specFamilyConfidence (new_work_match_count s) 16
            < specFamilyConfidence (maintenance_match_count s) 20) := by
      rintro ⟨-, hlt⟩
      exact absurd hB.2 (not_lt.mpr hlt.le)
    rw [if_neg hA, if_pos hB]; exact ⟨rfl, rfl⟩
  · rw [if_neg hC.1, if_neg hC.2]; exact ⟨rfl, rfl⟩

/-- C3 witness: concrete run of the pipeline on "debug" (one maintenance
match, no new-work match, both confidences below threshold → AMBIGUOUS). -/
theorem intent_pipeline_decision_witness :
    (analyze_intent "debug").intent_type = IntentType.ambiguous
    ∧ (analyze_intent "debug").confidence
        = max (specFamilyConfidence 1 20) (specFamilyConfidence 0 16) := by
  have h1 : maintenance_match_count "debug" = 1 := by decide
  have h2 : new_work_match_count "debug" = 0 := by decide
  have h := (intent_pipeline_decision "debug" (by decide)).2.2
  rw [h1, h2] at h
  refine h ⟨?_, ?_⟩ <;>
    simp [specFamilyConfidence, min_def] <;> norm_num

/-- C2 (amended): a text with at least `8` matching maintenance patterns and
no matching new-work pattern is classified MAINTENANCE with confidence above
`0.5` (indeed above the `0.6` threshold); three matches are not enough, since
`min(1, 3/20 × 1.3) = 0.195` stays below the threshold. -/
theorem intent_many_maintenance_matches (s : String)
    (h : (pyStrip s.data).isEmpty = false)
    (h8 : 8 ≤ maintenance_match_count s)
    (h0 : new_work_match_count s = 0) :
    (analyze_intent s).intent_type = IntentType.maintenance
    ∧ 1/2 < (analyze_intent s).confidence := by
  have hmm : (maintenance_matches (normalized s)).length = maintenance_match_count s := rfl
  have hnm : (new_work_matches (normalized s)).length = new_work_match_count s := rfl
  rw [analyze_intent_eq s h, determine_intent_cases, hmm, hnm, h0]
  have hM : (8 : ℚ) ≤ (maintenance_match_count s : ℚ) := by exact_mod_cast h8
  have hmc : (6 : ℚ)/10 < specFamilyConfidence (maintenance_match_count s) 20 := by
    unfold specFamilyConfidence
    rw [lt_min_iff]
    refine ⟨by norm_num, ?_⟩
    nlinarith [hM, mul_self_nonneg ((maintenance_match_count s : ℚ) - 8)]
  have hnc : specFamilyConfidence 0 16 = 0 := by
    unfold specFamilyConfidence; norm_num
  have hcond : 6/10 < specFamilyConfidence (maintenance_match_count s) 20
      ∧ specFamilyConfidence 0 16 < specFamilyConfidence (maintenance_match_count s) 20 := by
    refine ⟨hmc, ?_⟩
    rw [hnc]; linarith
  rw [if_pos hcond]
  exact ⟨rfl, by simpa using lt_trans (by norm_num : (1:ℚ)/2 < 6/10) hmc⟩

/-- C2 witness: a message matching exactly 8 maintenance patterns and no
new-work pattern is classified MAINTENANCE with confidence above 0.5. -/
theorem intent_many_maintenance_matches_witness :
    (analyze_intent "fix tests bug issues errors failures broken styles and debug").intent_type
      = IntentType.maintenance
    ∧ 1/2 < (analyze_intent
        "fix tests bug issues errors failures broken styles and debug").confidence :=
  intent_many_maintenance_matches _ (by decide) (by decide) (by decide)

/-- C2 counterexample: the spec's own example text matches 4 ≥ 3 maintenance
patterns and 0 new-work patterns, yet the classifier returns AMBIGUOUS with
confidence 0.28 (not MAINTENANCE with confidence > 0.5): 4 matches leave
`min(1, 4/20 × 1.4) = 0.28` below the 0.6 threshold. -/
theorem intent_spec_example_is_ambiguous :
    3 ≤ maintenance_match_count "fix the failing tests and debug the broken build"
    ∧ new_work_match_count "fix the failing tests and debug the broken build" = 0
    ∧ (analyze_intent "fix the failing tests and debug the broken build").intent_type
        = IntentType.ambiguous
    ∧ (analyze_intent "fix the failing tests and debug the broken build").confidence
        = 7/25 := by
  have h4 : (maintenance_matches
      (normalized "fix the failing tests and debug the broken build")).length = 4 := by decide
  have h0 : (new_work_matches
      (normalized "fix the failing tests and debug the broken build")).length = 0 := by decide
  refine ⟨by decide, by decide, ?_, ?_⟩
  · rw [analyze_intent_eq _ (by decide), determine_intent_cases, h4, h0,
      if_neg (by norm_num [specFamilyConfidence, min_def]),
      if_neg (by norm_num [specFamilyConfidence, min_def])]
  · rw [analyze_intent_eq _ (by decide), determine_intent_cases, h4, h0,
      if_neg (by norm_num [specFamilyConfidence, min_def]),
      if_neg (by norm_num [specFamilyConfidence, min_def])]
    norm_num [specFamilyConfidence, min_def]

/-! ## Context-aware arbiter (`hooks/context_aware_hook.py`) -/

/-- Workspace state dictionary built by `check_workspace_state`. -/
structure WorkspaceState where
  has_uncommitted_changes : Bool
  has_open_prs : Bool
  is_clean : Bool
deriving DecidableEq, Repr

/-- Derivation of `is_clean` from the two checks, as in
`check_workspace_state`. -/
def mkWorkspaceState (has_uncommitted_changes has_open_prs : Bool) : WorkspaceState :=
  ⟨has_uncommitted_changes, has_open_prs, !(has_uncommitted_changes || has_open_prs)⟩

/-- The environment variables consulted around the arbiter.
`AGENT_OS_BYPASS` is listed because the repository's test-suite sets it;
`should_allow_work` itself reads only `AGENT_OS_WORK_TYPE`. -/
structure Env where
  agent_os_work_type : String
  agent_os_bypass : String
deriving DecidableEq, Repr

/-- Outcome of one `input()` call: a line, or EOFError/KeyboardInterrupt. -/
inductive PromptResponse
  | interrupted
  | line (s : String)
deriving DecidableEq, Repr

/-- `ContextAwareWorkflowHook._handle_ambiguous_intent`: the single
interactive prompt, with the user's response passed explicitly. -/
def handle_ambiguous_intent (resp : PromptResponse) (ws : WorkspaceState) : Bool :=
  match resp with
  | .interrupted => ws.is_clean
  | .line s =>
    let response := pyLowerStr (pyStripStr s)
    if response = "maintenance" then true
    else if response = "new_work" then ws.is_clean
    else ws.is_clean

/-- `ContextAwareWorkflowHook.should_allow_work`: manual environment override
first (an unrecognized non-empty value falls through), then the classifier,
then the interactive prompt on AMBIGUOUS. -/
def should_allow_work (env : Env) (user_message : String) (ws : WorkspaceState)
    (resp : PromptResponse) : Bool :=
  let manual_override := pyLowerStr env.agent_os_work_type
  if manual_override = "maintenance" then true
  else if manual_override = "new_work" then ws.is_clean
  else
    match (analyze_intent user_message).intent_type with
    | .maintenance => true
    | .new_work => ws.is_clean
    | .ambiguous => handle_ambiguous_intent resp ws

/-! ## Manual override system (`hooks/manual_override_system.py`) -/

/-- `OverrideType` enum. -/
inductive OverrideType
  | none
  | force_new_work
  | force_maintenance
  | interactive
  | abort
  | disabled
deriving DecidableEq, Repr

/-- `OverrideDecision` dataclass. -/
structure OverrideDecision where
  override_type : OverrideType
  reasoning : String
  user_message : String
deriving DecidableEq, Repr

/-- `HookDecisionResult` dataclass. -/
structure HookDecisionResult where
  allow_work : Bool
  reasoning : String
  override_used : Bool
deriving DecidableEq, Repr

/-- `ManualOverrideSystem.parse_override_args` (flags modelled by membership;
`parse_known_args` with three `store_true` flags cannot fail). -/
def parse_override_args (allow_manual_override : Bool) (args : List String) :
    OverrideDecision :=
  if !allow_manual_override then
    ⟨.disabled, "Manual overrides disabled in configuration", ""⟩
  else if args.contains "--force-new-work" then
    ⟨.force_new_work, "Command line override flag --force-new-work",
      "--force-new-work flag used"⟩
  else if args.contains "--force-maintenance" then
    ⟨.force_maintenance, "Command line override flag --force-maintenance",
      "--force-maintenance flag used"⟩
  else if args.contains "--interactive" then
    ⟨.interactive, "Interactive mode requested via --interactive flag",
      "--interactive flag used"⟩
  else
    ⟨.none, "No override flags provided", ""⟩

/-- Retry budget of `prompt_for_disambiguation`. -/
def max_retries : Nat := 3

/-- The `for attempt in range(max_retries)` loop of
`prompt_for_disambiguation`; an exhausted input list models EOF on `input()`
(caught as EOFError → ABORT). -/
def prompt_loop : List PromptResponse → Nat → OverrideDecision
  | [], _ =>
    ⟨.abort, "User interrupted interactive prompt",
      "User interrupted prompt (Ctrl+C or EOF)"⟩
  | r :: rest, attempt =>
    match r with
    | .interrupted =>
      ⟨.abort, "User interrupted interactive prompt",
        "User interrupted prompt (Ctrl+C or EOF)"⟩
    | .line s =>
      let choice := pyLowerStr (pyStripStr s)
      if choice = "m" then
        ⟨.force_maintenance, "User selected maintenance work via interactive prompt",
          "User chose maintenance work from interactive prompt"⟩
      else if choice = "n" then
        ⟨.force_new_work, "User selected new work via interactive prompt",
          "User chose new work from interactive prompt"⟩
      else if choice = "a" then
        ⟨.abort, "User chose to abort work via interactive prompt",
          "User aborted work from interactive prompt"⟩
      else if attempt < max_retries - 1 then prompt_loop rest (attempt + 1)
      else
        ⟨.abort, "Max retries reached for interactive prompt",
          "User failed to provide valid choice"⟩

/-- `ManualOverrideSystem.prompt_for_disambiguation` (the confidence scores
only feed the printed banner and do not affect the decision). -/
def prompt_for_disambiguation (allow_manual_override : Bool)
    (inputs : List PromptResponse) : OverrideDecision :=
  if !allow_manual_override then
    ⟨.disabled, "Manual overrides disabled in configuration", ""⟩
  else prompt_loop inputs 0

/-- `ManualOverrideSystem.apply_override_to_hook_decision`. -/
def apply_override_to_hook_decision (original_decision : Bool)
    (od : OverrideDecision) (_user_message : String) : HookDecisionResult :=
  match od.override_type with
  | .none =>
    ⟨original_decision, "No override applied - using original hook decision", false⟩
  | .force_new_work =>
    ⟨true, "Manual override: " ++ od.reasoning, true⟩
  | .force_maintenance =>
    ⟨true, "Maintenance override: " ++ od.reasoning, true⟩
  | .abort =>
    ⟨false, "Work aborted: " ++ od.reasoning, true⟩
  | .disabled =>
    ⟨original_decision, "Manual overrides disabled - using original hook decision", false⟩
  | .interactive =>
    ⟨original_decision, "Unknown override type - using original decision", false⟩

/-- C1 (amended): the environment-sourced override behaves as claimed
(forced maintenance allows unconditionally, forced new_work allows exactly
when `workspace.is_clean`), but the flag-sourced override system sets
`allow_work = True` for FORCE_NEW_WORK regardless of the original
workspace-based decision (as for FORCE_MAINTENANCE), deferring workspace
hygiene to other checks. -/
theorem forced_override_paths :
    (∀ (env : Env) (msg : String) (ws : WorkspaceState) (r : PromptResponse),
      pyLowerStr env.agent_os_work_type = "maintenance" →
      should_allow_work env msg ws r = true)
    ∧ (∀ (env : Env) (msg : String) (ws : WorkspaceState) (r : PromptResponse),
      pyLowerStr env.agent_os_work_type = "new_work" →
      should_allow_work env msg ws r = ws.is_clean)
    ∧ (∀ (b : Bool) (d : OverrideDecision) (msg : String),
      d.override_type = OverrideType.force_maintenance →
      (apply_override_to_hook_decision b d msg).allow_work = true)
    ∧ (∀ (b : Bool) (d : OverrideDecision) (msg : String),
      d.override_type = OverrideType.force_new_work →
      (apply_override_to_hook_decision b d msg).allow_work = true) := by
  refine ⟨fun env msg ws r h => ?_, fun env msg ws r h => ?_,
    fun b d msg h => ?_, fun b d msg h => ?_⟩
  · simp [should_allow_work, h]
  · simp [should_allow_work, h]
  · simp [apply_override_to_hook_decision, h]
  · simp [apply_override_to_hook_decision, h]

/-- C1 witness: concrete runs of both override sources. -/
theorem forced_override_paths_witness :
    should_allow_work ⟨"maintenance", ""⟩ "x" (mkWorkspaceState true true)
      PromptResponse.interrupted = true
    ∧ should_allow_work ⟨"new_work", ""⟩ "x" (mkWorkspaceState true false)
      PromptResponse.interrupted = (mkWorkspaceState true false).is_clean
    ∧ (apply_override_to_hook_decision false
        (parse_override_args true ["--force-maintenance"]) "x").allow_work = true
    ∧ (apply_override_to_hook_decision false
        (parse_override_args true ["--force-new-work"]) "x").allow_work = true :=
  ⟨forced_override_paths.1 _ "x" _ _ (by decide),
   forced_override_paths.2.1 _ "x" _ _ (by decide),
   forced_override_paths.2.2.1 false _ "x" (by decide),
   forced_override_paths.2.2.2 false _ "x" (by decide)⟩

/-- C1 counterexample: with the flag-sourced FORCE_NEW_WORK override and an
original hook decision of block (the dirty-workspace outcome), the override
system still sets `allow_work = True`, where the claim requires a block. -/
theorem flag_forced_new_work_allows_despite_block :
    (apply_override_to_hook_decision false
      (parse_override_args true ["--force-new-work"])
      "implement new dashboard").allow_work = true := by decide

/-- C4: the arbiter never reads `AGENT_OS_BYPASS`; with bypass set, a forced
new_work override and a dirty workspace, `should_allow_work` returns False
(blocks), contradicting the spec and the repository's own test-suite
(`test_bypass_flag`), which expect bypass to win. The second conjunct shows
the decision is invariant under the bypass variable. -/
theorem bypass_env_ignored :
    should_allow_work ⟨"new_work", "true"⟩ "any work" (mkWorkspaceState true true)
      PromptResponse.interrupted = false
    ∧ (∀ (wt b₁ b₂ msg : String) (ws : WorkspaceState) (r : PromptResponse),
        should_allow_work ⟨wt, b₁⟩ msg ws r = should_allow_work ⟨wt, b₂⟩ msg ws r) :=
  ⟨by decide, fun _ _ _ _ _ _ => rfl⟩

/-- C6 (amended): the context-aware hook's own disambiguation handler
defaults every failure (interrupt/EOF or any response other than
"maintenance"; there are no retries) to allow-iff-`workspace.is_clean`, but
the manual override system's prompt turns interrupts and exhaustion of its 3
retries into an ABORT decision, which blocks regardless of cleanliness. -/
theorem ambiguous_failure_defaults :
    (∀ ws : WorkspaceState,
      handle_ambiguous_intent PromptResponse.interrupted ws = ws.is_clean)
    ∧ (∀ (ws : WorkspaceState) (s : String),
      pyLowerStr (pyStripStr s) ≠ "maintenance" →
      handle_ambiguous_intent (PromptResponse.line s) ws = ws.is_clean)
    ∧ ((prompt_for_disambiguation true [PromptResponse.interrupted]).override_type
        = OverrideType.abort)
    ∧ (∀ s1 s2 s3 : String,
      pyLowerStr (pyStripStr s1) ∉ (["m", "n", "a"] : List String) →
      pyLowerStr (pyStripStr s2) ∉ (["m", "n", "a"] : List String) →
      pyLowerStr (pyStripStr s3) ∉ (["m", "n", "a"] : List String) →
      (prompt_for_disambiguation true
        [PromptResponse.line s1, PromptResponse.line s2,
          PromptResponse.line s3]).override_type = OverrideType.abort)
    ∧ (∀ (b : Bool) (d : OverrideDecision) (msg : String),
      d.override_type = OverrideType.abort →
      (apply_override_to_hook_decision b d msg).allow_work = false) := by
  refine ⟨fun ws => rfl, fun ws s h => ?_, rfl, fun s1 s2 s3 h1 h2 h3 => ?_,
    fun b d msg h => ?_⟩
  · simp only [handle_ambiguous_intent, if_neg h, ite_self]
  · simp only [List.mem_cons, List.mem_singleton, not_or] at h1 h2 h3
    simp [prompt_for_disambiguation, prompt_loop, max_retries,
      h1.1, h1.2.1, h1.2.2.1, h2.1, h2.2.1, h2.2.2.1, h3.1, h3.2.1, h3.2.2.1]
  · simp [apply_override_to_hook_decision, h]

/-- C6 witness: concrete failure modes of both disambiguation paths. -/
theorem ambiguous_failure_defaults_witness :
    handle_ambiguous_intent PromptResponse.interrupted (mkWorkspaceState true false)
      = (mkWorkspaceState true false).is_clean
    ∧ handle_ambiguous_intent (PromptResponse.line "whatever")
        (mkWorkspaceState true false) = (mkWorkspaceState true false).is_clean
    ∧ (prompt_for_disambiguation true
        [PromptResponse.line "x", PromptResponse.line "y",
          PromptResponse.line "z"]).override_type = OverrideType.abort
    ∧ (apply_override_to_hook_decision true
        (prompt_for_disambiguation true [PromptResponse.interrupted])
        "msg").allow_work = false :=
  ⟨ambiguous_failure_defaults.1 _,
   ambiguous_failure_defaults.2.1 _ "whatever" (by decide),
   ambiguous_failure_defaults.2.2.2.1 "x" "y" "z" (by decide) (by decide) (by decide),
   ambiguous_failure_defaults.2.2.2.2 true _ "msg" (by decide)⟩

/-- C6 counterexample: an interrupted disambiguation with a clean workspace
is blocked by the override-system path (ABORT), where the claim requires the
conservative new-work default to allow (since `is_clean` holds). -/
theorem prompt_interrupt_blocks_clean_workspace :
    (mkWorkspaceState false false).is_clean = true
    ∧ (apply_override_to_hook_decision (mkWorkspaceState false false).is_clean
        (prompt_for_disambiguation true [PromptResponse.interrupted])
        "update the code").allow_work = false := by decide

/-! ## TTL cache (`hooks/shared/cache_manager.py`) -/

/-- Association-list lookup, mirroring Python dict key lookup. -/
def assocFind {β : Type} : List (String × β) → String → Option β
  | [], _ => Option.none
  | (k', v) :: t, k => if k' = k then some v else assocFind t k

/-- Dict store: replace the existing key in place, else append. -/
def setKey {β : Type} : List (String × β) → String → β → List (String × β)
  | [], k, v => [(k, v)]
  | (k', v') :: t, k, v =>
    if k' = k then (k, v) :: t else (k', v') :: setKey t k v

/-- Python `del d[k]`. -/
def eraseKey {β : Type} (l : List (String × β)) (k : String) : List (String × β) :=
  l.filter (fun e => !(e.1 == k))

/-- `CacheManager`: `_cache` maps keys to (value, timestamp); `_ttl_seconds`
defaults to 30.  `time.time()` is passed explicitly as `now`. -/
structure CacheManager (α : Type) where
  cache : List (String × α × ℚ)
  ttl_seconds : ℚ

/-- Fresh `CacheManager()`. -/
def CacheManager.init (α : Type) : CacheManager α := ⟨[], 30⟩

/-- `CacheManager.get`: expired entries are deleted lazily and reported
absent. Returns the looked-up value and the post-call cache state. -/
def CacheManager.get {α : Type} (c : CacheManager α) (key : String) (now : ℚ) :
    Option α × CacheManager α :=
  match assocFind c.cache key with
  | some (v, timestamp) =>
    if now - timestamp < c.ttl_seconds then (some v, c)
    else (Option.none, ⟨eraseKey c.cache key, c.ttl_seconds⟩)
  | Option.none => (Option.none, c)

/-- `CacheManager.set`: always overwrites, stamping the current time (the
`ttl` argument is computed but never stored, as in the source). -/
def CacheManager.set {α : Type} (c : CacheManager α) (key : String) (value : α)
    (now : ℚ) (ttl : Option ℚ) : CacheManager α :=
  let _ := ttl.getD c.ttl_seconds
  ⟨setKey c.cache key (value, now), c.ttl_seconds⟩

theorem assocFind_setKey_self {β : Type} (l : List (String × β)) (k : String) (v : β) :
    assocFind (setKey l k v) k = some v := by
  induction l with
  | nil => simp [setKey, assocFind]
  | cons e t ih =>
    by_cases h : e.1 = k
    · simp [setKey, assocFind, h]
    · simp only [setKey]
      rw [if_neg h]
      simp only [assocFind]
      rw [if_neg h]
      exact ih

theorem assocFind_eraseKey_self {β : Type} (l : List (String × β)) (k : String) :
    assocFind (eraseKey l k) k = Option.none := by
  induction l with
  | nil => simp [eraseKey, assocFind]
  | cons e t ih =>
    by_cases h : e.1 = k
    · simpa [eraseKey, h] using ih
    · simp only [eraseKey, List.filter]
      rw [show (!(e.1 == k)) = true by simp [h]]
      simp only [assocFind]
      rw [if_neg h]
      simpa [eraseKey] using ih

/-- C7: a `set` followed by a `get` within the TTL returns exactly the stored
value; a `get` at or past the TTL reports the key absent and deletes the
entry; and `set` always overwrites, resetting the timestamp to the call
time. -/
theorem cache_ttl_roundtrip {α : Type} (c : CacheManager α) (k : String) (v : α)
    (ttlArg : Option ℚ) (t0 t1 : ℚ) :
    (t1 - t0 < c.ttl_seconds →
      ((c.set k v t0 ttlArg).get k t1).1 = some v)
    ∧ (c.ttl_seconds ≤ t1 - t0 →
      ((c.set k v t0 ttlArg).get k t1).1 = Option.none
      ∧ assocFind ((c.set k v t0 ttlArg).get k t1).2.cache k = Option.none)
    ∧ assocFind (c.set k v t0 ttlArg).cache k = some (v, t0) := by
  have hfind : assocFind (c.set k v t0 ttlArg).cache k = some (v, t0) :=
    assocFind_setKey_self c.cache k (v, t0)
  refine ⟨fun hlt => ?_, fun hge => ?_, hfind⟩
  · simp only [CacheManager.get, hfind]
    rw [if_pos (by simpa using hlt)]
  · constructor
    · simp only [CacheManager.get, hfind]
      rw [if_neg (by simpa using not_lt.mpr hge)]
    · simp only [CacheManager.get, hfind]
      rw [if_neg (by simpa using not_lt.mpr hge)]
      exact assocFind_eraseKey_self _ k

/-- C7 witness: concrete round-trip at times 0, 10, 40 against the default
30-second TTL. -/
theorem cache_ttl_roundtrip_witness :
    (((CacheManager.init Nat).set "git_status" 7 0 Option.none).get "git_status" 10).1
      = some 7
    ∧ (((CacheManager.init Nat).set "git_status" 7 0 Option.none).get "git_status" 40).1
      = Option.none :=
  ⟨(cache_ttl_roundtrip (CacheManager.init Nat) "git_status" 7 Option.none 0 10).1
      (by norm_num [CacheManager.init]),
   ((cache_ttl_roundtrip (CacheManager.init Nat) "git_status" 7 Option.none 0 40).2.1
      (by norm_num [CacheManager.init])).1⟩

/-! ## Orchestrator exception flow (`context_aware_hook.main`,
`pretool/workspace_hygiene.main`) -/

/-- A Python exception value. -/
inductive PyExc
  | exc (msg : String)
deriving DecidableEq, Repr

/-- `context_aware_hook.main`: exits 1 without a hook-type argument; wraps
ONLY the stdin JSON parse in try/except (parse failure → `sys.exit(0)`); hook
construction and `process_hook` run after the try block, so their exceptions
propagate. `process_hook` (with everything it calls) is the explicit
parameter `process_hook`. -/
def context_aware_hook_main (hook_type : Option String)
    (parsed : Except PyExc String)
    (process_hook : String → String → Except PyExc Nat) : Except PyExc Nat :=
  match hook_type with
  | Option.none => Except.ok 1
  | some ht =>
    match parsed with
    | Except.error _ => Except.ok 0
    | Except.ok input_data => process_hook ht input_data

/-- Parsed stdin payload of the workspace-hygiene hook. -/
structure HygieneInput where
  tool : String
  cwd : String
deriving DecidableEq, Repr

/-- `pretool/workspace_hygiene.main`: the whole body sits in one try/except
returning 0 on any exception (fail open); a dirty workspace returns 1. -/
def workspace_hygiene_main (parsed : Except PyExc HygieneInput)
    (check_git_status_s : String → Except PyExc Bool) : Nat :=
  let body : Except PyExc Nat := do
    let d ← parsed
    if d.tool = "Write" ∨ d.tool = "Edit" ∨ d.tool = "MultiEdit" then do
      let clean ← check_git_status_s d.cwd
      if !clean then pure 1 else pure 0
    else pure 0
  match body with
  | Except.ok n => n
  | Except.error _ => 0

/-- C5 (amended): parse failures at the context-aware orchestrator are
converted to exit 0, and the workspace-hygiene hook converts every exception
in its body to exit 0; but the context-aware orchestrator passes
inner-component results (including exceptions) through unchanged after
parsing, so inner exceptions are not caught there. -/
theorem orchestrator_exception_paths :
    (∀ (ht : String) (e : PyExc) (proc : String → String → Except PyExc Nat),
      context_aware_hook_main (some ht) (Except.error e) proc = Except.ok 0)
    ∧ (∀ (ht d : String) (proc : String → String → Except PyExc Nat),
      context_aware_hook_main (some ht) (Except.ok d) proc = proc ht d)
    ∧ (∀ (e : PyExc) (check : String → Except PyExc Bool),
      workspace_hygiene_main (Except.error e) check = 0)
    ∧ (∀ (cwd : String) (e : PyExc),
      workspace_hygiene_main (Except.ok ⟨"Write", cwd⟩)
        (fun _ => Except.error e) = 0) :=
  ⟨fun _ _ _ => rfl, fun _ _ _ => rfl, fun _ _ => rfl, fun _ _ => rfl⟩

/-- C5 counterexample: an exception raised by an inner component (here,
`process_hook`) propagates out of `main` instead of becoming an ALLOW
verdict with exit code 0. -/
theorem inner_exception_propagates :
    context_aware_hook_main (some "pretool") (Except.ok "input")
      (fun _ _ => Except.error (PyExc.exc "boom"))
      = Except.error (PyExc.exc "boom") := rfl

/-! ## Work-session short-circuit (`modules/hook_core.py`,
`workflow-enforcement-hook.py check_workflow_status`) -/

/-- The two sources of the work-session flag. -/
structure SessionEnv where
  agent_os_work_session : String
  session_file_exists : Bool
deriving DecidableEq, Repr

/-- `BaseHookHandler.check_work_session`: env var equals "true" (lowered) or
the `~/.agent-os/cache/work-session` marker file exists. -/
def check_work_session (e : SessionEnv) : Bool :=
  pyLowerStr e.agent_os_work_session = "true" || e.session_file_exists

/-- `check_workflow_status`: returns the issue list plus the number of times
the uncommitted-changes check and PR check were invoked (the mocked
call counts of the spec's test). The git check is skipped entirely in work
session mode; the PR check always runs. -/
def check_workflow_status (e : SessionEnv)
    (has_uncommitted_changes has_open_prs : Bool) : List String × Nat × Nat :=
  let issues_git :=
    if check_work_session e then (([] : List String), 0)
    else ((if has_uncommitted_changes then ["Uncommitted changes detected"] else []), 1)
  let issues_pr :=
    if has_open_prs then ["Open pull requests need review/merge"] else []
  (issues_git.1 ++ issues_pr, issues_git.2, 1)

/-- C9: whenever the work-session flag is active (env var "true" or marker
file present), the uncommitted-changes check is never invoked and no
uncommitted-changes issue is reported, while the open-PR check still runs
(exactly once) and reports normally. -/
theorem work_session_skips_git_check (e : SessionEnv) (hu hp : Bool)
    (h : pyLowerStr e.agent_os_work_session = "true" ∨ e.session_file_exists = true) :
    (check_workflow_status e hu hp).2.1 = 0
    ∧ "Uncommitted changes detected" ∉ (check_workflow_status e hu hp).1
    ∧ (check_workflow_status e hu hp).2.2 = 1
    ∧ ("Open pull requests need review/merge" ∈ (check_workflow_status e hu hp).1
        ↔ hp = true) := by
  have hs : check_work_session e = true := by
    rcases h with h | h <;> simp [check_work_session, h]
  refine ⟨?_, ?_, rfl, ?_⟩ <;>
    cases hp <;> simp [check_workflow_status, hs]

/-- C9 witness: active work session with a dirty workspace and an open PR. -/
theorem work_session_skips_git_check_witness :
    (check_workflow_status ⟨"true", false⟩ true true).2.1 = 0
    ∧ "Uncommitted changes detected" ∉ (check_workflow_status ⟨"true", false⟩ true true).1
    ∧ (check_workflow_status ⟨"true", false⟩ true true).2.2 = 1
    ∧ ("Open pull requests need review/merge"
        ∈ (check_workflow_status ⟨"true", false⟩ true true).1 ↔ true = true) :=
  work_session_skips_git_check ⟨"true", false⟩ true true (Or.inl (by decide))

/-! ## Cached git status (`hooks/shared/git_utils.py`) -/

/-- The names `git_utils.py` brings into module scope: its imports
(`subprocess`, `asyncio`, `Optional`, `Tuple`, `cache`) and its own two
functions. It never imports `time`. -/
def git_utils_module_names : List String :=
  ["subprocess", "asyncio", "Optional", "Tuple", "cache",
   "check_git_status_async", "check_git_status_sync"]

/-- Counts of externally observable calls made by a git-status check. -/
structure GitCallTrace where
  cache_gets : Nat
  cache_sets : Nat
  subprocess_calls : Nat
deriving DecidableEq, Repr

/-- Errors a run of the check can raise to its caller. -/
inductive GitStatusError
  | name_error (n : String)
deriving DecidableEq, Repr

/-- Ambient state for a run: the clock, the module-level cache, and the
subprocess outcome (`none` models `asyncio.TimeoutError`). -/
structure GitWorld where
  now : ℚ
  git_cache : CacheManager Bool
  subprocess_result : Option (Int × String)

/-- `check_git_status_async`. Its first statement,
`cache_key = f"git_status_{cwd}_{int(time.time()/30)}"`, resolves the global
name `time`, and it sits before the `try:` block, so a failed lookup is not
caught by the function's handlers. The remaining body (cache probe via
walrus-truthiness, subprocess with fail-open timeout handling, cache store)
is reached only if `time` resolves. -/
def check_git_status_async (cwd : String) (w : GitWorld) :
    Except GitStatusError Bool × GitCallTrace :=
  if git_utils_module_names.contains "time" then
    let cache_key := "git_status_" ++ cwd ++ "_" ++ toString ⌊w.now / 30⌋
    let cached := (w.git_cache.get cache_key w.now).1
    if cached = some true then (Except.ok true, ⟨1, 0, 0⟩)
    else
      match w.subprocess_result with
      | Option.none => (Except.ok true, ⟨1, 0, 1⟩)
      | some (returncode, stdout) =>
        let result := decide (returncode = 0) && (pyStrip stdout.data).isEmpty
        (Except.ok result, ⟨1, 1, 1⟩)
  else (Except.error (GitStatusError.name_error "time"), ⟨0, 0, 0⟩)

/-- `check_git_status_sync`: `asyncio.run` propagates the coroutine's result
or exception unchanged. -/
def check_git_status_sync (cwd : String) (w : GitWorld) :
    Except GitStatusError Bool × GitCallTrace :=
  check_git_status_async cwd w

/-- C10: for every directory and world state, both the async check and its
sync wrapper raise `NameError: time` before any cache access or subprocess
call (all trace counters are zero), so the fail-open `True` returns are never
produced. -/
theorem git_status_check_raises_name_error (cwd : String) (w : GitWorld) :
    check_git_status_async cwd w
      = (Except.error (GitStatusError.name_error "time"), ⟨0, 0, 0⟩)
    ∧ check_git_status_sync cwd w
      = (Except.error (GitStatusError.name_error "time"), ⟨0, 0, 0⟩) := by
  have h : check_git_status_async cwd w
      = (Except.error (GitStatusError.name_error "time"), ⟨0, 0, 0⟩) := by
    unfold check_git_status_async
    rw [if_neg (by decide)]
  exact ⟨h, h⟩

/-! ## Task router (`hooks/subagent_detector.py`) -/

/-- A Python value stored in the router's context mapping. -/
inductive CtxVal
  | str (s : String)
  | bool (b : Bool)
deriving DecidableEq, Repr

/-- Python `str(...)` on a context value. -/
def pyValStr : CtxVal → String
  | .str s => s
  | .bool b => if b then "True" else "False"

/-- Python truthiness of `context.get(key)`. -/
def truthyVal : Option CtxVal → Bool
  | Option.none => false
  | some (.str s) => !s.isEmpty
  | some (.bool b) => b

/-- The `context` argument of `SubagentDetector.detect`: `None`, a
non-mapping value, or a mapping (Python dict as an association list). -/
inductive PyContext
  | pynone
  | non_mapping (objrepr : String)
  | mapping (entries : List (String × CtxVal))
deriving DecidableEq, Repr

/-- `AGENT_CAPABILITIES` in declaration order: agent name, trigger words,
compiled regex patterns. -/
def AGENT_CAPABILITIES : List (String × List String × List RePat) :=
  [ ("context-fetcher",
     ["search", "find", "locate", "grep", "analyze codebase",
      "look for", "scan", "explore", "review code", "examine"],
     [ .seqPat [atomP ["search"], atomP ["for", "through", "in"]],
       .seqPat [atomP ["find"], atomP ["all", "every", "instances", "occurrences"]],
       .seqPat [atomP ["analyze", "examine", "review"], atomP ["code", "codebase", "files"]],
       .seqPat [atomP ["look"], atomP ["for", "through"], atomP ["file"]] ]),
    ("date-checker",
     ["date", "today", "current date", "now", "time",
      "yesterday", "tomorrow", "week", "month", "year"],
     [ .seqPat [atomP ["what", "get", "current", "today"], atomP ["date"]],
       .seqPat [atomP ["create", "make", "new"], atomP ["with", "using"], atomP ["date"]],
       .seqPat [atomP ["folder", "file", "directory"], atomP ["date"]] ]),
    ("file-creator",
     ["create file", "new file", "generate", "scaffold",
      "template", "boilerplate", "component", "module"],
     [ .seqPat [atomP ["create", "make", "new", "generate"],
         atomP ["file", "component", "module", "class"]],
       .seqPat [atomP ["scaffold", "template", "boilerplate"]],
       .seqPat [atomP ["add", "write"], atomP ["new", "fresh"],
         atomP ["file", "component"]] ]),
    ("git-workflow",
     ["git", "commit", "push", "pull", "merge", "branch",
      "pr", "pull request", "github", "repository", "clone"],
     [ .gitSpaceWord,
       .seqPat [atomP ["create", "make", "open"], atomP ["pr", "pull request"]],
       .seqPat [atomP ["commit", "push", "pull", "merge", "branch"]],
       .seqPat [atomP ["github", "repository", "repo"]] ]),
    ("test-runner",
     ["test", "tests", "testing", "pytest", "unittest",
      "coverage", "run tests", "validate", "verify"],
     [ .seqPat [atomP ["run", "execute", "perform"], atomP ["test"]],
       .seqPat [atomP ["test"], atomP ["pass", "fail", "coverage"]],
       .seqPat [atomP ["verify", "validate", "check"],
         atomP ["work", "implementation", "code"]],
       .seqPat [atomP ["pytest", "unittest", "jest", "mocha"]] ]),
    ("general-purpose", [], []) ]

/-- The explicit operation-tag tier of `_calculate_agent_scores` (+5.0). -/
def op_tag_score (agent : String) (operation : List Char) : ℚ :=
  if operation.isEmpty then 0
  else if agent = "git-workflow" ∧ containsSub operation "git".data then 5
  else if agent = "test-runner" ∧ containsSub operation "test".data then 5
  else if agent = "file-creator" ∧ containsSub operation "file_creation".data then 5
  else if agent = "date-checker" ∧ containsSub operation "date".data then 5
  else if agent = "context-fetcher" ∧ containsSub operation "search".data then 5
  else 0

/-- The boolean context-flag tier of `_calculate_agent_scores` (+3.0 each). -/
def flag_score (agent : String) (m : List (String × CtxVal)) : ℚ :=
  (if truthyVal (assocFind m "involves_git") ∧ agent = "git-workflow" then 3 else 0)
  + (if truthyVal (assocFind m "involves_testing") ∧ agent = "test-runner" then 3 else 0)
  + (if truthyVal (assocFind m "requires_current_date") ∧ agent = "date-checker" then 3 else 0)
  + (if truthyVal (assocFind m "involves_multiple_files") ∧ agent = "context-fetcher" then 3 else 0)
  + (if truthyVal (assocFind m "requires_template") ∧ agent = "file-creator" then 3 else 0)

/-- Per-agent score: operation tag + flags + 2.0 per matched trigger word
+ 2.5 per matched regex pattern. -/
def agent_score (m : List (String × CtxVal)) (combined operation : List Char)
    (entry : String × List String × List RePat) : ℚ :=
  op_tag_score entry.1 operation + flag_score entry.1 m
  + 2 * ((entry.2.1.filter (fun t => containsSub combined t.data)).length : ℚ)
  + (5 / 2) * ((entry.2.2.filter (fun p => reMatches combined p)).length : ℚ)

/-- `_calculate_agent_scores`, including the general-purpose floor of 0.5. -/
def calculate_agent_scores (m : List (String × CtxVal)) : List (String × ℚ) :=
  let prompt := pyLower (pyValStr ((assocFind m "prompt").getD (CtxVal.str ""))).data
  let operation := pyLower (pyValStr ((assocFind m "operation").getD (CtxVal.str ""))).data
  let combined := prompt ++ ' ' :: operation
  let scores := AGENT_CAPABILITIES.map (fun e => (e.1, agent_score m combined operation e))
  if (assocFind scores "general-purpose").getD 0 = 0 then
    setKey scores "general-purpose" (1 / 2)
  else scores

/-- Python `max(items, key=value)`: first entry with the greatest score. -/
def maxEntry : List (String × ℚ) → String × ℚ
  | [] => ("", 0)
  | e :: t => t.foldl (fun acc x => if acc.2 < x.2 then x else acc) e

/-- Insert into a descending-sorted list. -/
def insertDesc (x : ℚ) : List ℚ → List ℚ
  | [] => [x]
  | y :: t => if y ≤ x then x :: y :: t else y :: insertDesc x t

/-- `sorted(values, reverse=True)`. -/
def sortDesc (l : List ℚ) : List ℚ :=
  l.foldr insertDesc []

/-- `_calculate_confidence`. -/
def calculate_confidence (scores : List (String × ℚ)) (best_score : ℚ) : ℚ :=
  if best_score = 0 then 3 / 10
  else
    match sortDesc (scores.map Prod.snd) with
    | _ :: second_best :: _ =>
      if second_best * 2 < best_score then min (19 / 20) (1 / 2 + best_score / 10)
      else min (3 / 4) (3 / 10 + best_score / 10)
    | _ => min (9 / 10) (1 / 2 + best_score / 10)

/-- `_generate_reason` (the single quotes around the prompt snippet are the
ASCII apostrophe, written via its code point). -/
def generate_reason (agent : String) (m : List (String × CtxVal)) : String :=
  let sq := String.singleton (Char.ofNat 39)
  let prompt := (pyValStr ((assocFind m "prompt").getD (CtxVal.str ""))).take 50
  let base :=
    if agent = "context-fetcher" then "Detected codebase search/analysis task"
    else if agent = "date-checker" then "Detected date/time requirement"
    else if agent = "file-creator" then "Detected file creation with template needs"
    else if agent = "git-workflow" then "Detected git/GitHub operations"
    else if agent = "test-runner" then "Detected test execution requirement"
    else if agent = "general-purpose" then "Using general-purpose agent for broad task"
    else "Selected based on context analysis"
  if !prompt.isEmpty then base ++ ": " ++ sq ++ prompt ++ "..." ++ sq else base

/-- `DetectionResult.to_dict()` output of `detect`; `warning` models the
extra dict key present only in the invalid-context branch. -/
structure SubagentDetection where
  agent : String
  reason : String
  confidence : ℚ
  warning : Option String
deriving DecidableEq, Repr

/-- `SubagentDetector.detect`: malformed contexts short-circuit; a mapping is
scored, the first best-scoring agent wins, and confidence derives from the
score distribution. -/
def detect (context : PyContext) : SubagentDetection :=
  match context with
  | .pynone =>
    ⟨"general-purpose", "No context provided, using general-purpose agent",
      3 / 10, Option.none⟩
  | .non_mapping _ =>
    ⟨"general-purpose", "Invalid context format, using general-purpose agent",
      3 / 10, some "Context should be a dictionary"⟩
  | .mapping m =>
    if m.isEmpty then
      ⟨"general-purpose", "Empty context, using general-purpose agent",
        3 / 10, Option.none⟩
    else
      let scores := calculate_agent_scores m
      let best := maxEntry scores
      ⟨best.1, generate_reason best.1 m, calculate_confidence scores best.2,
        Option.none⟩

/-- C8 (amended): `None`, non-mapping, and empty-mapping contexts all return
the general-purpose fallback with confidence exactly 0.3 (and the router,
being a total function, never raises); but only the non-mapping branch
carries the diagnostic `warning` field — the None and empty-mapping results
have no warning key. -/
theorem router_malformed_context :
    ((detect PyContext.pynone).agent = "general-purpose"
      ∧ (detect PyContext.pynone).confidence = 3/10
      ∧ (detect PyContext.pynone).warning = Option.none)
    ∧ (∀ s : String,
      (detect (PyContext.non_mapping s)).agent = "general-purpose"
      ∧ (detect (PyContext.non_mapping s)).confidence = 3/10
      ∧ (detect (PyContext.non_mapping s)).warning
          = some "Context should be a dictionary")
    ∧ ((detect (PyContext.mapping [])).agent = "general-purpose"
      ∧ (detect (PyContext.mapping [])).confidence = 3/10
      ∧ (detect (PyContext.mapping [])).warning = Option.none) :=
  ⟨⟨rfl, rfl, rfl⟩, fun _ => ⟨rfl, rfl, rfl⟩, ⟨rfl, rfl, rfl⟩⟩

/-- C8 counterexample: `detect(None)` returns a result with no warning field
at all, where the claim requires a diagnostic warning field on every
malformed input. -/
theorem detect_none_lacks_warning :
    (detect PyContext.pynone).warning = Option.none
    ∧ (detect (PyContext.mapping [])).warning = Option.none := ⟨rfl, rfl⟩
